import Mathlib

/-!
Verification of the tk-maya-quickreview plugin
(src/tk-maya-quickreview/0.1.0/python/app/action.py and widgets.py).

The Python program is shallowly embedded: the host application
(Maya), the filesystem and the tracking service are modelled as an
explicit environment, and each Python method becomes a pure Lean
function from that environment to a trace of observable events.
Exceptions that the Python code can raise and does not catch are
represented explicitly, either as an `Option String` component of a
result (the uncaught exception message) or as an `Ev.pyRaise` event.
-/

namespace QuickReview

/-- Embedding of the `Quicktime` namedtuple of action.py (lines 30-38):
the immutable record describing the outcome of one capture attempt.
Fields that Python may leave as `None` are `Option`s. -/
structure Quicktime where
  success : Bool
  error_msg : Option String
  frame_count : Option Int
  frame_range : Option String
  first_frame : Option Int
  last_frame : Option Int
  path : Option String
deriving DecidableEq, Repr

/-- The environment a single call of `_generate_quicktime` observes:
whether the destination directory exists, whether `os.makedirs` raises
(and with which message), the frame-slider bounds returned by
`cmds.playbackOptions` (already truncated to int, as Python int() does),
and whether `cmds.playblast` raises (and with which message). -/
structure CaptureEnv where
  dirExists : Bool
  makedirsError : Option String
  firstFrame : Int
  lastFrame : Int
  playblastError : Option String
deriving Repr

/-- Embedding of Python str() applied to a value that is either a string
or None: str(None) is the string None. -/
def pyStr : Option String → String
  | none => "None"
  | some s => s

/-- Embedding of `_generate_quicktime` (action.py lines 293-346).
If the quicktime directory is missing and `os.makedirs` raises
`os.error`, every informational field of the record is None and
`success` is false. Otherwise the frame fields are filled in from the
frame slider and `success` reflects whether `cmds.playblast` raised;
in both of those cases `path` is the requested quicktime path. -/
def _generate_quicktime (quicktime_path : String) (env : CaptureEnv) : Quicktime :=
  match (if env.dirExists then none else env.makedirsError) with
  | some e =>
    { success := false
      error_msg := some e
      frame_count := none
      frame_range := none
      first_frame := none
      last_frame := none
      path := none }
  | none =>
    let f := env.firstFrame
    let l := env.lastFrame
    match env.playblastError with
    | some e =>
      { success := false
        error_msg := some e
        frame_count := some (l - f + 1)
        frame_range := some (toString f ++ "-" ++ toString l)
        first_frame := some f
        last_frame := some l
        path := some quicktime_path }
    | none =>
      { success := true
        error_msg := none
        frame_count := some (l - f + 1)
        frame_range := some (toString f ++ "-" ++ toString l)
        first_frame := some f
        last_frame := some l
        path := some quicktime_path }

/-- Embedding of `QuickReviewAction._validate_quicktime` (action.py
lines 221-227): `success and path and os.path.exists(path)`, with
Python truthiness of the path (None and the empty string are falsy) and
short-circuit evaluation, so `os.path.exists` is consulted only for a
truthy path. `fsExists` models `os.path.exists` at the time of the
call. -/
def _validate_quicktime (qt : Quicktime) (fsExists : String → Bool) : Bool :=
  qt.success &&
    (match qt.path with
     | none => false
     | some s => if s = "" then false else fsExists s)

theorem validate_path_shape (qt : Quicktime) (fsExists : String → Bool)
    (h : _validate_quicktime qt fsExists = true) :
    qt.success = true ∧ ∃ p, qt.path = some p ∧ p ≠ "" ∧ fsExists p = true := by
  rcases qt with ⟨s, em, fc, fr, ff, lf, pa⟩
  cases pa with
  | none => simp [_validate_quicktime] at h
  | some p =>
    by_cases hp : p = ""
    · simp [_validate_quicktime, hp] at h
    · simp only [_validate_quicktime, hp, if_false, Bool.and_eq_true] at h
      exact ⟨h.1, p, rfl, hp, h.2⟩

/-- Claim C2: `_validate_quicktime` returns true iff the record's
success flag is true, its path is a truthy string, and the filesystem
reports a file at that path at call time; it is a pure function of the
record and the filesystem, so it modifies nothing. -/
theorem C2_validate_iff (qt : Quicktime) (fsExists : String → Bool) :
    _validate_quicktime qt fsExists = true ↔
      (qt.success = true ∧ ∃ p, qt.path = some p ∧ p ≠ "" ∧ fsExists p = true) := by
  constructor
  · exact validate_path_shape qt fsExists
  · rintro ⟨hs, p, hp, hne, hfs⟩
    simp [_validate_quicktime, hs, hp, hne, hfs]

/-- A capture environment in which the directory exists but the
playblast itself raises. -/
def playblastFailEnv : CaptureEnv :=
  { dirExists := true
    makedirsError := none
    firstFrame := 1
    lastFrame := 24
    playblastError := some "Maya command error" }

/-- Claim C1 counterexample: a capture attempt in which `cmds.playblast`
raises produces a record with `success = false` whose `path` is still
the requested quicktime path, not None. So success=False does not imply
that the record carries no output path. -/
theorem C1_counterexample :
    (_generate_quicktime "/tmp/review.mov" playblastFailEnv).success = false ∧
      (_generate_quicktime "/tmp/review.mov" playblastFailEnv).path =
        some "/tmp/review.mov" := by
  constructor <;> rfl

/-- Claim C1, amended: the implication holds only in the other
direction. A record produced by `_generate_quicktime` has `path = None`
only when `success` is false (namely when directory creation failed);
a `success = false` record produced by a failing playblast still
carries the requested output path. -/
theorem C1_path_none_implies_failure (p : String) (env : CaptureEnv)
    (h : (_generate_quicktime p env).path = none) :
    (_generate_quicktime p env).success = false := by
  unfold _generate_quicktime at *
  rcases hd : (if env.dirExists then none else env.makedirsError) with _ | e <;>
    rcases hpb : env.playblastError with _ | e2 <;>
    simp [hd, hpb] at h ⊢

/-- A capture environment in which directory creation fails. -/
def makedirsFailEnv : CaptureEnv :=
  { dirExists := false
    makedirsError := some "Permission denied"
    firstFrame := 1
    lastFrame := 24
    playblastError := none }

theorem C1_witness :
    (_generate_quicktime "/tmp/review.mov" makedirsFailEnv).success = false :=
  C1_path_none_implies_failure "/tmp/review.mov" makedirsFailEnv rfl

/-- Claim C9: whenever a record produced by `_generate_quicktime` has a
non-None first frame (i.e. the playblast was attempted), the frame
fields are mutually consistent and the path is the requested path,
whether or not the playblast succeeded: frame_count is
last - first + 1, frame_range is the string first-last, and path is the
requested quicktime path. -/
theorem C9_frame_fields_consistent (p : String) (env : CaptureEnv)
    (h : (_generate_quicktime p env).first_frame ≠ none) :
    ∃ f l,
      (_generate_quicktime p env).first_frame = some f ∧
      (_generate_quicktime p env).last_frame = some l ∧
      (_generate_quicktime p env).frame_count = some (l - f + 1) ∧
      (_generate_quicktime p env).frame_range =
        some (toString f ++ "-" ++ toString l) ∧
      (_generate_quicktime p env).path = some p := by
  refine ⟨env.firstFrame, env.lastFrame, ?_⟩
  unfold _generate_quicktime at *
  rcases hd : (if env.dirExists then none else env.makedirsError) with _ | e <;>
    rcases hpb : env.playblastError with _ | e2 <;>
    simp [hd, hpb] at h ⊢

theorem C9_witness :
    ∃ f l,
      (_generate_quicktime "/tmp/review.mov" playblastFailEnv).first_frame = some f ∧
      (_generate_quicktime "/tmp/review.mov" playblastFailEnv).last_frame = some l ∧
      (_generate_quicktime "/tmp/review.mov" playblastFailEnv).frame_count =
        some (l - f + 1) ∧
      (_generate_quicktime "/tmp/review.mov" playblastFailEnv).frame_range =
        some (toString f ++ "-" ++ toString l) ∧
      (_generate_quicktime "/tmp/review.mov" playblastFailEnv).path =
        some "/tmp/review.mov" :=
  C9_frame_fields_consistent "/tmp/review.mov" playblastFailEnv (by decide)

/-- Characters of the part of a path after the last slash, as in
`os.path.basename` on posix paths: fold the characters, restarting at
every separator. -/
def basenameList (l : List Char) : List Char :=
  l.foldl (fun acc c => if c = '/' then [] else acc ++ [c]) []

/-- Embedding of `os.path.basename` for posix paths. -/
def pyBasename (s : String) : String :=
  String.mk (basenameList s.toList)

/-- Index of the last dot in a character list, if any. -/
def lastDotIdx : List Char → Option Nat
  | [] => none
  | c :: rest =>
    match lastDotIdx rest with
    | some i => some (i + 1)
    | none => if c = '.' then some 0 else none

/-- The root part of `os.path.splitext` for a string with no path
separator (the code only applies it to a basename): split at the last
dot, unless every character before that dot is itself a dot, in which
case the whole string is the root (so dotfiles keep their name). -/
def splitextRootList (l : List Char) : List Char :=
  match lastDotIdx l with
  | none => l
  | some i => if (l.take i).all (fun c => c = '.') then l else l.take i

/-- The first component of `os.path.splitext`. -/
def pySplitextRoot (s : String) : String :=
  String.mk (splitextRootList s.toList)

/-- A tracking-service entity reference (a non-empty link dictionary in
the Python code, so it is truthy exactly when present). -/
structure Entity where
  etype : String
  eid : Int
deriving DecidableEq, Repr

/-- The parts of the toolkit context that `_upload` reads. -/
structure Context where
  entity : Option Entity
  project : Option Entity
  task : Option Entity
deriving DecidableEq, Repr

/-- Embedding of the version payload dictionary built by
`QuickReviewAction._upload` (action.py lines 185-201). A `sg_task`
value of none models the key being absent from the dictionary. -/
structure VersionData where
  code : String
  user : Entity
  entity : Option Entity
  project : Option Entity
  created_by : Entity
  description : String
  frame_count : Option Int
  frame_range : Option String
  sg_first_frame : Option Int
  sg_last_frame : Option Int
  sg_path_to_movie : Option String
  sg_task : Option Entity
deriving DecidableEq, Repr

/-- Embedding of the dictionary construction in `_upload`: `p` is the
value of the record's path (the Python code reads `self.quicktime.path`
directly; the enclosing flow only reaches this point once validation
has established the path is a string). The `sg_task` key is added only
when the context task is truthy. -/
def buildVersionData (ctx : Context) (current_user : Entity) (notes : String)
    (qt : Quicktime) (p : String) : VersionData :=
  { code := pySplitextRoot (pyBasename p)
    user := current_user
    entity := ctx.entity
    project := ctx.project
    created_by := current_user
    description := notes
    frame_count := qt.frame_count
    frame_range := qt.frame_range
    sg_first_frame := qt.first_frame
    sg_last_frame := qt.last_frame
    sg_path_to_movie := qt.path
    sg_task := if ctx.task.isSome then ctx.task else none }

/-- Claim C10: in the version payload built by `_upload`, `code` is the
basename of the quicktime path with its extension removed,
`sg_path_to_movie` is the record's path, and `sg_task` is present
exactly when the context task is set, in which case it is that task. -/
theorem C10_version_payload (ctx : Context) (current_user : Entity)
    (notes : String) (qt : Quicktime) (p : String) (hp : qt.path = some p) :
    (buildVersionData ctx current_user notes qt p).code =
        pySplitextRoot (pyBasename p) ∧
      (buildVersionData ctx current_user notes qt p).sg_path_to_movie = some p ∧
      ((buildVersionData ctx current_user notes qt p).sg_task.isSome ↔
        ctx.task.isSome) ∧
      ∀ t, ctx.task = some t →
        (buildVersionData ctx current_user notes qt p).sg_task = some t := by
  refine ⟨rfl, by simp [buildVersionData, hp], ?_, ?_⟩
  · rcases ht : ctx.task with _ | t <;> simp [buildVersionData, ht]
  · intro t ht
    simp [buildVersionData, ht]

/-- A concrete quicktime record as produced by a successful capture. -/
def qtOk : Quicktime :=
  _generate_quicktime "/shots/sh010/review/sh010_2024-05-01_10-30.mov"
    { dirExists := true
      makedirsError := none
      firstFrame := 101
      lastFrame := 148
      playblastError := none }

/-- A concrete context with a task set. -/
def ctxEx : Context :=
  { entity := some ⟨"Shot", 12⟩
    project := some ⟨"Project", 3⟩
    task := some ⟨"Task", 77⟩ }

theorem C10_witness :
    (buildVersionData ctxEx ⟨"HumanUser", 5⟩ "looks good" qtOk
          "/shots/sh010/review/sh010_2024-05-01_10-30.mov").code =
        pySplitextRoot (pyBasename "/shots/sh010/review/sh010_2024-05-01_10-30.mov") ∧
      (buildVersionData ctxEx ⟨"HumanUser", 5⟩ "looks good" qtOk
          "/shots/sh010/review/sh010_2024-05-01_10-30.mov").sg_path_to_movie =
        some "/shots/sh010/review/sh010_2024-05-01_10-30.mov" ∧
      ((buildVersionData ctxEx ⟨"HumanUser", 5⟩ "looks good" qtOk
          "/shots/sh010/review/sh010_2024-05-01_10-30.mov").sg_task.isSome ↔
        ctxEx.task.isSome) ∧
      ∀ t, ctxEx.task = some t →
        (buildVersionData ctxEx ⟨"HumanUser", 5⟩ "looks good" qtOk
          "/shots/sh010/review/sh010_2024-05-01_10-30.mov").sg_task = some t :=
  C10_version_payload ctxEx ⟨"HumanUser", 5⟩ "looks good" qtOk
    "/shots/sh010/review/sh010_2024-05-01_10-30.mov" rfl

/-- Sanity: the basename and extension split behave as on a real path. -/
theorem code_example :
    pySplitextRoot (pyBasename "/shots/sh010/review/sh010_2024-05-01_10-30.mov") =
      "sh010_2024-05-01_10-30" := by
  rfl

/-- Observable events of the plugin: calls into the engine (busy
indicator, dialogs), logging, the capture command, filesystem removal
(emitted on a successful `os.remove`), the two tracking-service calls,
the marshalled main-thread callback, and an uncaught Python exception
leaving a method. -/
inductive Ev where
  | showBusy (title msg : String)
  | clearBusy
  | genQuicktime (path : String)
  | logError (msg : String)
  | logInfo (msg : String)
  | showErrorDialog (summary msg : String)
  | showConfirmDialog (path : String)
  | closeConfirm
  | osRemove (path : String)
  | sgCreate (data : VersionData)
  | sgUpload (versionId : Int) (path : Option String) (field : String)
  | mainThreadCallback (versionId : Int)
  | showSuccessDialog (versionId : Int)
  | pyRaise (exc : String)
deriving DecidableEq, Repr

/-- Embedding of `UploadThread.run` (action.py lines 274-290): log,
create the version, log, upload the movie found under the
sg_path_to_movie key of the payload to the created version id, and
marshal the completion callback to the main thread with the created
version. `create` models `shotgun.create`, returning the id that the
service assigns to the payload. -/
def uploadThreadRun (create : VersionData → Int) (data : VersionData) : List Ev :=
  let version := create data
  [Ev.logInfo "Creating Shotgun version: %s",
   Ev.sgCreate data,
   Ev.logInfo "Uploading quicktime to Shotgun...",
   Ev.sgUpload version data.sg_path_to_movie "sg_uploaded_movie",
   Ev.mainThreadCallback version]

/-- True on the tracking-service create event. -/
def isCreateEv : Ev → Bool
  | .sgCreate _ => true
  | _ => false

/-- True on the tracking-service upload event. -/
def isUploadEv : Ev → Bool
  | .sgUpload _ _ _ => true
  | _ => false

/-- True on the marshalled completion-callback event. -/
def isCallbackEv : Ev → Bool
  | .mainThreadCallback _ => true
  | _ => false

/-- True on the capture event. -/
def isGenEv : Ev → Bool
  | .genQuicktime _ => true
  | _ => false

/-- Claim C3: a run of the upload worker performs exactly one create,
then exactly one upload (with the id returned by create and the movie
path of the payload), then exactly one marshalled completion callback
carrying that created version; the whole trace is those five events in
order, so there is no retry, cancellation or queueing of either call. -/
theorem C3_upload_thread (create : VersionData → Int) (data : VersionData) :
    uploadThreadRun create data =
        [Ev.logInfo "Creating Shotgun version: %s",
         Ev.sgCreate data,
         Ev.logInfo "Uploading quicktime to Shotgun...",
         Ev.sgUpload (create data) data.sg_path_to_movie "sg_uploaded_movie",
         Ev.mainThreadCallback (create data)] ∧
      (uploadThreadRun create data).countP isCreateEv = 1 ∧
      (uploadThreadRun create data).countP isUploadEv = 1 ∧
      (uploadThreadRun create data).countP isCallbackEv = 1 := by
  refine ⟨rfl, ?_, ?_, ?_⟩ <;>
    simp [uploadThreadRun, List.countP_cons, isCreateEv, isUploadEv, isCallbackEv]

/-- Embedding of the Python with-statement for a context manager whose
enter and exit emit fixed event lists and whose exit returns None (so
it never suppresses an exception): exit runs whether the body finished
normally or raised, and the body's outcome is propagated unchanged. -/
def pyWith {α : Type} (enterEvs exitEvs : List Ev)
    (body : List Ev × Except String α) : List Ev × Except String α :=
  (enterEvs ++ body.1 ++ exitEvs, body.2)

/-- Embedding of `ActionBusy` (action.py lines 230-255) used as a
context manager: enter shows the global busy indicator, exit clears
it. -/
def busyWith {α : Type} (title msg : String)
    (body : List Ev × Except String α) : List Ev × Except String α :=
  pyWith [Ev.showBusy title msg] [Ev.clearBusy] body

/-- Claim C8: for every body, including one that raises, the busy
context manager first shows the global busy indicator, runs the body,
and clears the indicator as the final event before the block ends,
propagating the body's outcome (so an exception still escapes but the
indicator is never left shown). -/
theorem C8_busy_always_cleared {α : Type} (title msg : String)
    (body : List Ev × Except String α) :
    (busyWith title msg body).1 =
        Ev.showBusy title msg :: (body.1 ++ [Ev.clearBusy]) ∧
      (busyWith title msg body).1.getLast? = some Ev.clearBusy ∧
      (busyWith title msg body).2 = body.2 := by
  refine ⟨rfl, ?_, rfl⟩
  have h : (busyWith title msg body).1 =
      (Ev.showBusy title msg :: body.1) ++ [Ev.clearBusy] := rfl
  rw [h, List.getLast?_append_cons]
  rfl

/-- The environment one execution of the action observes: the resolved
destination path (from `_get_quicktime_path`), the capture environment,
the filesystem at validation time, the current user and context, the
notes typed into the confirmation dialog, the id assigned by
`shotgun.create`, and the outcome of `os.remove` on rejection. -/
structure AppEnv where
  quicktimePath : String
  capture : CaptureEnv
  fsExists : String → Bool
  current_user : Entity
  ctx : Context
  notes : String
  sgCreateId : VersionData → Int
  removeOk : String → Bool

/-- The action name (`self._name` in `QuickReviewAction.__init__`). -/
def actionName : String := "Quick Review"

/-- The busy message of the capture step. -/
def genBusyMsg : String := "<br>Generating quicktime..."

/-- The busy message of the upload step. -/
def uploadBusyMsg : String := "<br>Uploading quicktime for newly created version..."

/-- The error-dialog summary built in `execute` (the name field of the
format string is the constant action name). -/
def errSummary : String := "<b>Quick Review</b> encountered an <b>Error</b>!"

/-- The error message built in `execute`, with the constant pieces of
the concatenation collapsed; `str` of the error field renders None as
the string None. -/
def errMessage (qt : Quicktime) : String :=
  "Oops! Unable to generate the quicktime.\n\nError: " ++
    pyStr qt.error_msg ++
    "\n\nPlease contact your pipeline team for assistance."

/-- The record produced by the capture step of `execute`. -/
def genQt (env : AppEnv) : Quicktime :=
  _generate_quicktime env.quicktimePath env.capture

/-- Whether the generated record passes `_validate_quicktime`. -/
def validated (env : AppEnv) : Bool :=
  _validate_quicktime (genQt env) env.fsExists

/-- Embedding of `QuickReviewAction.execute` (action.py lines 62-85):
generate the quicktime inside the busy context, store the record, then
either log and show the error dialog (when validation fails) or show
the confirmation dialog. Returns the trace and the record stored on
the action. -/
def executeRun (env : AppEnv) : List Ev × Quicktime :=
  let qt := genQt env
  let capture : List Ev :=
    [Ev.showBusy actionName genBusyMsg,
     Ev.genQuicktime env.quicktimePath,
     Ev.clearBusy]
  if _validate_quicktime qt env.fsExists then
    (capture ++ [Ev.showConfirmDialog env.quicktimePath], qt)
  else
    (capture ++
      [Ev.logError (errMessage qt),
       Ev.showErrorDialog errSummary (errMessage qt)], qt)

/-- Embedding of `QuickReviewAction._cleanup` (action.py lines
120-137): if no record is stored, return immediately; otherwise try to
remove the path, logging an error on `os.error` and an info message on
success. Passing None to `os.remove` would raise a TypeError, which
the `except os.error` clause does not catch; that uncaught exception is
the second component. -/
def cleanupRun (qt : Option Quicktime) (removeOk : String → Bool) :
    List Ev × Option String :=
  match qt with
  | none => ([], none)
  | some q =>
    match q.path with
    | none => ([], some "TypeError")
    | some p =>
      if removeOk p then
        ([Ev.osRemove p, Ev.logInfo ("Removed unused quicktime: " ++ p)], none)
      else
        ([Ev.logError ("Unable to remove unused quicktime: " ++ p)], none)

/-- Embedding of `QuickReviewAction._rejected` (action.py lines
162-168): clean up, then close the confirmation widget; an exception
escaping `_cleanup` skips the close. -/
def rejectedRun (qt : Option Quicktime) (removeOk : String → Bool) :
    List Ev × Option String :=
  let r := cleanupRun qt removeOk
  match r.2 with
  | some e => (r.1 ++ [Ev.pyRaise e], some e)
  | none => (r.1 ++ [Ev.closeConfirm], none)

/-- Embedding of `QuickReviewAction._upload` followed by the spawned
`UploadThread.run` and the marshalled `_upload_complete` (action.py
lines 171-218): close the confirmation widget, build the payload inside
the busy context, start the worker, and show the success dialog for the
created version once the callback runs. Reading the path of a record
whose path is None would raise a TypeError inside the busy block (the
busy exit still runs, then the exception escapes). -/
def uploadRun (env : AppEnv) (qt : Quicktime) : List Ev × Option String :=
  match qt.path with
  | none =>
    ([Ev.closeConfirm, Ev.showBusy actionName uploadBusyMsg, Ev.clearBusy,
      Ev.pyRaise "TypeError"], some "TypeError")
  | some p =>
    let data := buildVersionData env.ctx env.current_user env.notes qt p
    ([Ev.closeConfirm, Ev.showBusy actionName uploadBusyMsg, Ev.clearBusy] ++
        uploadThreadRun env.sgCreateId data ++
        [Ev.showSuccessDialog (env.sgCreateId data)],
      none)

/-- One complete interaction with the action: `execute`, then, when the
record validated, either the accept path (`_upload` and its worker and
callback) or the reject path (`_rejected`), as chosen by the user in
the confirmation dialog. -/
def fullRun (env : AppEnv) (accepts : Bool) : List Ev × Option String :=
  let e := executeRun env
  if _validate_quicktime e.2 env.fsExists then
    if accepts then
      let u := uploadRun env e.2
      (e.1 ++ u.1, u.2)
    else
      let r := rejectedRun (some e.2) env.removeOk
      (e.1 ++ r.1, r.2)
  else
    (e.1, none)

/-- The event trace of one complete interaction. -/
def fullTrace (env : AppEnv) (accepts : Bool) : List Ev :=
  (fullRun env accepts).1

/-- The payload built on the accept path. -/
def dataOf (env : AppEnv) (p : String) : VersionData :=
  buildVersionData env.ctx env.current_user env.notes (genQt env) p

/-- The step of the workflow an event belongs to, if any: capture (0),
confirm (1), upload (2), show result (3). -/
def phase : Ev → Option Nat
  | .genQuicktime _ => some 0
  | .showConfirmDialog _ => some 1
  | .closeConfirm => some 2
  | .sgCreate _ => some 2
  | .sgUpload _ _ _ => some 2
  | .mainThreadCallback _ => some 2
  | .showSuccessDialog _ => some 3
  | _ => none

theorem fullTrace_invalid (env : AppEnv) (accepts : Bool)
    (h : validated env = false) :
    fullTrace env accepts =
      [Ev.showBusy actionName genBusyMsg,
       Ev.genQuicktime env.quicktimePath,
       Ev.clearBusy,
       Ev.logError (errMessage (genQt env)),
       Ev.showErrorDialog errSummary (errMessage (genQt env))] := by
  unfold validated at h
  simp [fullTrace, fullRun, executeRun, h]

theorem fullTrace_accept (env : AppEnv) (p : String)
    (h : validated env = true) (hp : (genQt env).path = some p) :
    fullTrace env true =
      [Ev.showBusy actionName genBusyMsg,
       Ev.genQuicktime env.quicktimePath,
       Ev.clearBusy,
       Ev.showConfirmDialog env.quicktimePath,
       Ev.closeConfirm,
       Ev.showBusy actionName uploadBusyMsg,
       Ev.clearBusy,
       Ev.logInfo "Creating Shotgun version: %s",
       Ev.sgCreate (dataOf env p),
       Ev.logInfo "Uploading quicktime to Shotgun...",
       Ev.sgUpload (env.sgCreateId (dataOf env p))
         (dataOf env p).sg_path_to_movie "sg_uploaded_movie",
       Ev.mainThreadCallback (env.sgCreateId (dataOf env p)),
       Ev.showSuccessDialog (env.sgCreateId (dataOf env p))] := by
  unfold validated at h
  simp [fullTrace, fullRun, executeRun, h, uploadRun, hp, uploadThreadRun, dataOf]

theorem fullTrace_reject (env : AppEnv) (p : String)
    (h : validated env = true) (hp : (genQt env).path = some p) :
    fullTrace env false =
      [Ev.showBusy actionName genBusyMsg,
       Ev.genQuicktime env.quicktimePath,
       Ev.clearBusy,
       Ev.showConfirmDialog env.quicktimePath] ++
        (cleanupRun (some (genQt env)) env.removeOk).1 ++
        [Ev.closeConfirm] := by
  unfold validated at h
  have hc : (cleanupRun (some (genQt env)) env.removeOk).2 = none := by
    simp [cleanupRun, hp]
    split <;> simp
  simp [fullTrace, fullRun, executeRun, h, rejectedRun, hc]

/-- Claim C4: the steps of the workflow only ever occur in the order
capture (0), confirm (1), upload (2), show result (3): the phases of
the events of every complete interaction form a sorted list, the
confirmation dialog appears only when the record validated, the
tracking-service create happens only when the user accepted and only
after the confirmation dialog was closed, and the success dialog
appears only after the upload call, for the same created version. -/
theorem C4_step_order (env : AppEnv) (accepts : Bool) :
    ((fullTrace env accepts).filterMap phase).Sorted (· ≤ ·) ∧
      ((∃ p, Ev.showConfirmDialog p ∈ fullTrace env accepts) →
        validated env = true) ∧
      ((∃ d, Ev.sgCreate d ∈ fullTrace env accepts) →
        accepts = true ∧
          ∃ (i j : Nat) (d : VersionData), i < j ∧
            (fullTrace env accepts)[i]? = some Ev.closeConfirm ∧
            (fullTrace env accepts)[j]? = some (Ev.sgCreate d)) ∧
      ((∃ v, Ev.showSuccessDialog v ∈ fullTrace env accepts) →
        ∃ (i j : Nat) (v : Int) (q : Option String) (f : String), i < j ∧
          (fullTrace env accepts)[i]? = some (Ev.sgUpload v q f) ∧
          (fullTrace env accepts)[j]? = some (Ev.showSuccessDialog v)) := by
  cases hv : validated env with
  | false =>
    rw [fullTrace_invalid env accepts hv]
    refine ⟨by simp [phase], ?_, ?_, ?_⟩
    · rintro ⟨p, hp⟩; simp at hp
    · rintro ⟨d, hd⟩; simp at hd
    · rintro ⟨v, hs⟩; simp at hs
  | true =>
    obtain ⟨hs, p, hp, hpne, hfs⟩ := validate_path_shape _ _ hv
    cases accepts with
    | true =>
      rw [fullTrace_accept env p hv hp]
      refine ⟨by simp [phase], fun _ => rfl, fun _ => ?_, fun _ => ?_⟩
      · exact ⟨rfl, 4, 8, dataOf env p, by omega, rfl, rfl⟩
      · exact ⟨10, 12, env.sgCreateId (dataOf env p),
          (dataOf env p).sg_path_to_movie, "sg_uploaded_movie",
          by omega, rfl, rfl⟩
    | false =>
      rw [fullTrace_reject env p hv hp]
      cases hr : env.removeOk p with
      | true =>
        have hc : (cleanupRun (some (genQt env)) env.removeOk).1 =
            [Ev.osRemove p, Ev.logInfo ("Removed unused quicktime: " ++ p)] := by
          simp [cleanupRun, hp, hr]
        rw [hc]
        refine ⟨by simp [phase], fun _ => rfl, ?_, ?_⟩
        · rintro ⟨d, hd⟩; simp at hd
        · rintro ⟨v, hsv⟩; simp at hsv
      | false =>
        have hc : (cleanupRun (some (genQt env)) env.removeOk).1 =
            [Ev.logError ("Unable to remove unused quicktime: " ++ p)] := by
          simp [cleanupRun, hp, hr]
        rw [hc]
        refine ⟨by simp [phase], fun _ => rfl, ?_, ?_⟩
        · rintro ⟨d, hd⟩; simp at hd
        · rintro ⟨v, hsv⟩; simp at hsv

/-- A concrete environment in which capture and validation succeed. -/
def envEx : AppEnv :=
  { quicktimePath := "/shots/sh010/review/sh010_2024-05-01_10-30.mov"
    capture :=
      { dirExists := true
        makedirsError := none
        firstFrame := 101
        lastFrame := 148
        playblastError := none }
    fsExists := fun _ => true
    current_user := ⟨"HumanUser", 5⟩
    ctx := ctxEx
    notes := "looks good"
    sgCreateId := fun _ => 901
    removeOk := fun _ => true }

theorem C4_witness :
    validated envEx = true ∧
      (∃ (i j : Nat) (d : VersionData), i < j ∧
        (fullTrace envEx true)[i]? = some Ev.closeConfirm ∧
        (fullTrace envEx true)[j]? = some (Ev.sgCreate d)) := by
  have hv : validated envEx = true := by decide
  have hp : (genQt envEx).path =
      some "/shots/sh010/review/sh010_2024-05-01_10-30.mov" := by decide
  have ht := fullTrace_accept envEx _ hv hp
  have h := C4_step_order envEx true
  refine ⟨h.2.1 ⟨envEx.quicktimePath, ?_⟩,
    (h.2.2.1 ⟨dataOf envEx "/shots/sh010/review/sh010_2024-05-01_10-30.mov", ?_⟩).2⟩
  · rw [ht]; simp
  · rw [ht]; simp

/-- Claim C5: when the generated quicktime fails validation, the whole
interaction is exactly: busy shown and cleared around the capture, an
error log whose message contains the str of the record's error field,
and the error dialog; in particular no confirmation dialog, no
tracking-service create and no upload ever occur. -/
theorem C5_error_branch (env : AppEnv) (accepts : Bool)
    (h : validated env = false) :
    fullTrace env accepts =
        [Ev.showBusy actionName genBusyMsg,
         Ev.genQuicktime env.quicktimePath,
         Ev.clearBusy,
         Ev.logError (errMessage (genQt env)),
         Ev.showErrorDialog errSummary (errMessage (genQt env))] ∧
      (∃ a b, errMessage (genQt env) =
        a ++ pyStr (genQt env).error_msg ++ b) ∧
      (∀ p, Ev.showConfirmDialog p ∉ fullTrace env accepts) ∧
      (∀ d, Ev.sgCreate d ∉ fullTrace env accepts) ∧
      (∀ v q f, Ev.sgUpload v q f ∉ fullTrace env accepts) := by
  have ht := fullTrace_invalid env accepts h
  refine ⟨ht,
    ⟨"Oops! Unable to generate the quicktime.\n\nError: ",
     "\n\nPlease contact your pipeline team for assistance.", rfl⟩,
    ?_, ?_, ?_⟩
  · intro p; rw [ht]; simp
  · intro d; rw [ht]; simp
  · intro v q f; rw [ht]; simp

/-- A concrete environment in which directory creation fails, so the
record does not validate. -/
def envBad : AppEnv :=
  { quicktimePath := "/shots/sh010/review/sh010_2024-05-01_10-30.mov"
    capture := makedirsFailEnv
    fsExists := fun _ => true
    current_user := ⟨"HumanUser", 5⟩
    ctx := ctxEx
    notes := ""
    sgCreateId := fun _ => 901
    removeOk := fun _ => true }

theorem C5_witness :
    fullTrace envBad true =
      [Ev.showBusy actionName genBusyMsg,
       Ev.genQuicktime envBad.quicktimePath,
       Ev.clearBusy,
       Ev.logError (errMessage (genQt envBad)),
       Ev.showErrorDialog errSummary (errMessage (genQt envBad))] :=
  (C5_error_branch envBad true (by decide)).1

/-- Claim C6: on rejection, deletion of the quicktime is best-effort.
With no stored record nothing is removed and the widget is closed; with
a record whose path is a string, no exception escapes, the widget is
closed as the last step whatever `os.remove` did, the file is removed
when removal succeeds, and a failed removal produces only an error log
(no removal event, no exception). -/
theorem C6_reject_cleanup (qt : Option Quicktime) (removeOk : String → Bool) :
    (qt = none → rejectedRun qt removeOk = ([Ev.closeConfirm], none)) ∧
      ∀ q p, qt = some q → q.path = some p →
        (rejectedRun qt removeOk).2 = none ∧
        (rejectedRun qt removeOk).1.getLast? = some Ev.closeConfirm ∧
        (removeOk p = true →
          (rejectedRun qt removeOk).1 =
            [Ev.osRemove p,
             Ev.logInfo ("Removed unused quicktime: " ++ p),
             Ev.closeConfirm]) ∧
        (removeOk p = false →
          (rejectedRun qt removeOk).1 =
            [Ev.logError ("Unable to remove unused quicktime: " ++ p),
             Ev.closeConfirm] ∧
          ∀ x, Ev.osRemove x ∉ (rejectedRun qt removeOk).1) := by
  constructor
  · rintro rfl
    rfl
  · rintro q p rfl hp
    cases hr : removeOk p with
    | true =>
      have ht : rejectedRun (some q) removeOk =
          ([Ev.osRemove p, Ev.logInfo ("Removed unused quicktime: " ++ p),
            Ev.closeConfirm], none) := by
        simp [rejectedRun, cleanupRun, hp, hr]
      refine ⟨by rw [ht], by rw [ht]; rfl, ?_, ?_⟩
      · intro _; rw [ht]
      · intro hcon; exact absurd hcon (by decide)
    | false =>
      have ht : rejectedRun (some q) removeOk =
          ([Ev.logError ("Unable to remove unused quicktime: " ++ p),
            Ev.closeConfirm], none) := by
        simp [rejectedRun, cleanupRun, hp, hr]
      refine ⟨by rw [ht], by rw [ht]; rfl, ?_, ?_⟩
      · intro hcon; exact absurd hcon (by decide)
      · intro _
        exact ⟨by rw [ht], by rw [ht]; simp⟩

theorem C6_witness :
    rejectedRun none (fun _ => false) = ([Ev.closeConfirm], none) ∧
      (rejectedRun (some qtOk) (fun _ => false)).2 = none ∧
      (rejectedRun (some qtOk) (fun _ => false)).1 =
        [Ev.logError
          ("Unable to remove unused quicktime: " ++
            "/shots/sh010/review/sh010_2024-05-01_10-30.mov"),
         Ev.closeConfirm] := by
  have h1 := (C6_reject_cleanup none (fun _ => false)).1 rfl
  have h2 := (C6_reject_cleanup (some qtOk) (fun _ => false)).2 qtOk
    "/shots/sh010/review/sh010_2024-05-01_10-30.mov" rfl (by decide)
  exact ⟨h1, h2.1, (h2.2.2.2 rfl).1⟩

/-- Claim C7: the outcome of a capture attempt is one immutable record
with exactly the fields success, error_msg, frame_count, frame_range,
first_frame, last_frame and path (two records agreeing on those seven
fields are equal), every complete interaction performs exactly one
capture, and the record the action stores is exactly the one the
capture produced (it is a value of an immutable structure, so nothing
can change its fields afterwards). -/
theorem C7_single_record :
    (∀ a b : Quicktime,
        a.success = b.success → a.error_msg = b.error_msg →
        a.frame_count = b.frame_count → a.frame_range = b.frame_range →
        a.first_frame = b.first_frame → a.last_frame = b.last_frame →
        a.path = b.path → a = b) ∧
      ∀ env accepts,
        (fullTrace env accepts).countP isGenEv = 1 ∧
        (executeRun env).2 = genQt env := by
  constructor
  · intro a b h1 h2 h3 h4 h5 h6 h7
    cases a; cases b; simp_all
  · intro env accepts
    constructor
    · cases hv : validated env with
      | false =>
        rw [fullTrace_invalid env accepts hv]
        simp [List.countP_cons, isGenEv]
      | true =>
        obtain ⟨hs, p, hp, hpne, hfs⟩ := validate_path_shape _ _ hv
        cases accepts with
        | true =>
          rw [fullTrace_accept env p hv hp]
          simp [List.countP_cons, isGenEv]
        | false =>
          rw [fullTrace_reject env p hv hp]
          cases hr : env.removeOk p with
          | true =>
            simp only [cleanupRun, hp, hr, if_pos]
            simp [List.countP_cons, List.countP_append, isGenEv]
          | false =>
            simp only [cleanupRun, hp, hr, if_neg]
            simp [List.countP_cons, List.countP_append, isGenEv]
    · cases hb : _validate_quicktime (genQt env) env.fsExists <;>
        simp [executeRun, hb]

theorem C7_witness :
    qtOk = qtOk ∧ (fullTrace envEx true).countP isGenEv = 1 :=
  ⟨C7_single_record.1 qtOk qtOk rfl rfl rfl rfl rfl rfl rfl,
   (C7_single_record.2 envEx true).1⟩

end QuickReview
